import Mathlib

/-!
# Verification of the mole-v2 site-functionality testing engine

Shallow embedding of `src/index.js`: the failure-classification ledger
(`FailureTracker`), the element interaction policy (`safeElementAction`,
`testAllForms`, `testAllInteractiveElements`), the crawl traversal
(`performComprehensiveNavigation`), the decision engine (heuristic
`shouldFail` merged with the advisory judge), and the session retry loop.

The browser page-automation capability is external to the engine, so every
operation the engine performs through it (DOM evaluation, element actions,
navigation) is modelled by its observable outcome: `Except String A`, an
error carrying the thrown message.  Timestamps (`new Date().toISOString()`)
come from the ambient clock and nothing in the engine reads them back, so
they are not modelled.  `console.log` side effects are likewise dropped.
JS numbers standing for element counts are modelled as `Nat`; the one
derived fraction (the source's `brokenElementRatio`) is modelled as `Rat`.
-/

/-- Severity levels of a failure record.  The source uses the string
literals 'low' | 'medium' | 'high' | 'critical'; every call site passes one
of the four, so a closed enumeration is used. -/
inductive Severity where
  | low
  | medium
  | high
  | critical
deriving DecidableEq, Repr

/-- One failure record, as built by `FailureTracker.addFailure`
(src/index.js:39-52).  The `timestamp` field of the source is not modelled
(ambient clock). -/
structure FailureRecord where
  type : String
  message : String
  severity : Severity
  page : String
deriving DecidableEq, Repr

/-- One warning entry, as built by `FailureTracker.addWarning`
(src/index.js:53-56).  Unlike failures, the `page` field is stored as
given (possibly null), without the `|| 'main'` default. -/
structure WarningRecord where
  message : String
  page : Option String
deriving DecidableEq, Repr

/-- The failure-classification ledger (class `FailureTracker`,
src/index.js:30-80). -/
structure FailureTracker where
  failures : List FailureRecord
  criticalFailures : List FailureRecord
  warnings : List WarningRecord
  testedElements : Nat
  brokenElements : Nat
  pagesVisited : List String
deriving DecidableEq, Repr

/-- `new FailureTracker()` (src/index.js:31-38). -/
def initTracker : FailureTracker :=
  { failures := []
    criticalFailures := []
    warnings := []
    testedElements := 0
    brokenElements := 0
    pagesVisited := [] }

/-- The JS expression `page || 'main'` used by `addFailure`: null (here
`none`) and the empty string are both falsy and replaced by 'main'. -/
def pageOrMain (page : Option String) : String :=
  match page with
  | none => "main"
  | some p => if p = "" then "main" else p

/-- `FailureTracker.addFailure(type, message, severity = 'medium',
page = null)` (src/index.js:39-52): appends the record to `failures`, and
also to `criticalFailures` when the severity is critical. -/
def FailureTracker.addFailure (t : FailureTracker) (type message : String)
    (severity : Severity := Severity.medium) (page : Option String := none) :
    FailureTracker :=
  let f : FailureRecord :=
    { type := type, message := message, severity := severity
      page := pageOrMain page }
  { t with
    failures := t.failures ++ [f]
    criticalFailures :=
      if severity = Severity.critical then t.criticalFailures ++ [f]
      else t.criticalFailures }

/-- `FailureTracker.addWarning(message, page = null)` (src/index.js:53-56). -/
def FailureTracker.addWarning (t : FailureTracker) (message : String)
    (page : Option String := none) : FailureTracker :=
  { t with warnings := t.warnings ++ [{ message := message, page := page }] }

/-- `FailureTracker.incrementBroken()` (src/index.js:57-59). -/
def FailureTracker.incrementBroken (t : FailureTracker) : FailureTracker :=
  { t with brokenElements := t.brokenElements + 1 }

/-- `FailureTracker.incrementTested()` (src/index.js:60-62). -/
def FailureTracker.incrementTested (t : FailureTracker) : FailureTracker :=
  { t with testedElements := t.testedElements + 1 }

/-- `failureTracker.pagesVisited.push(url)`, done directly by the crawl
(src/index.js:497). -/
def FailureTracker.pushPageVisited (t : FailureTracker) (url : String) :
    FailureTracker :=
  { t with pagesVisited := t.pagesVisited ++ [url] }

/-- The `TESTING_CONFIG` constant object (src/index.js:19-29).  Timing
fields are carried for completeness; nothing proved depends on them. -/
structure TestingConfig where
  MAX_PAGES_TO_TEST : Nat
  MAX_DEPTH : Nat
  CLICK_TIMEOUT : Nat
  PAGE_TIMEOUT : Nat
  INTERACTION_DELAY : Nat
  SCROLL_DELAY : Nat
  FORM_FILL_DELAY : Nat
  CRITICAL_ERROR_THRESHOLD : Nat
  BROKEN_ELEMENT_THRESHOLD : Nat
deriving DecidableEq, Repr

/-- The literal configuration values of the source. -/
def TESTING_CONFIG : TestingConfig :=
  { MAX_PAGES_TO_TEST := 15
    MAX_DEPTH := 4
    CLICK_TIMEOUT := 3000
    PAGE_TIMEOUT := 15000
    INTERACTION_DELAY := 500
    SCROLL_DELAY := 200
    FORM_FILL_DELAY := 300
    CRITICAL_ERROR_THRESHOLD := 3
    BROKEN_ELEMENT_THRESHOLD := 2 }

/-- `FailureTracker.shouldFail()` (src/index.js:63-67): true iff there is a
critical failure, or the broken-element count reaches
`BROKEN_ELEMENT_THRESHOLD`, or the number of high-severity failures reaches
`CRITICAL_ERROR_THRESHOLD`.  A pure function of the ledger state. -/
def FailureTracker.shouldFail (t : FailureTracker) : Bool :=
  decide (0 < t.criticalFailures.length) ||
  decide (TESTING_CONFIG.BROKEN_ELEMENT_THRESHOLD ≤ t.brokenElements) ||
  decide (TESTING_CONFIG.CRITICAL_ERROR_THRESHOLD ≤
    (t.failures.filter (fun f => decide (f.severity = Severity.high))).length)

/-- The snapshot returned by `FailureTracker.getSummary()`
(src/index.js:68-79).  The source's `brokenElementRatio` field is modelled
as the exact rational `brokenElementFrac` (JS computes the same quotient in
floating point). -/
structure TestSummary where
  totalFailures : Nat
  criticalFailures : Nat
  warnings : Nat
  testedElements : Nat
  brokenElements : Nat
  brokenElementFrac : Rat
  pagesVisited : Nat
  summaryShouldFail : Bool
deriving DecidableEq, Repr

/-- `FailureTracker.getSummary()` (src/index.js:68-79). -/
def FailureTracker.getSummary (t : FailureTracker) : TestSummary :=
  { totalFailures := t.failures.length
    criticalFailures := t.criticalFailures.length
    warnings := t.warnings.length
    testedElements := t.testedElements
    brokenElements := t.brokenElements
    brokenElementFrac :=
      if 0 < t.testedElements then
        (t.brokenElements : Rat) / (t.testedElements : Rat)
      else 0
    pagesVisited := t.pagesVisited.length
    summaryShouldFail := t.shouldFail }

/-- Ledger states reachable by any sequence of the tracker's mutating
operations (`addFailure`, `addWarning`, `incrementTested`,
`incrementBroken`, plus the crawl's direct `pagesVisited.push`) starting
from a fresh tracker.  Every tracker the engine ever holds is of this
shape, since these are the only mutations in the source. -/
inductive ReachableOps : FailureTracker → Prop where
  | init : ReachableOps initTracker
  | addFailure {t} (type message : String) (severity : Severity)
      (page : Option String) (h : ReachableOps t) :
      ReachableOps (t.addFailure type message severity page)
  | addWarning {t} (message : String) (page : Option String)
      (h : ReachableOps t) : ReachableOps (t.addWarning message page)
  | incrementTested {t} (h : ReachableOps t) :
      ReachableOps t.incrementTested
  | incrementBroken {t} (h : ReachableOps t) :
      ReachableOps t.incrementBroken
  | pushPageVisited {t} (url : String) (h : ReachableOps t) :
      ReachableOps (t.pushPageVisited url)

/-! ## Element interaction policy -/

deriving instance DecidableEq for Except

/-- Result of the first `element.evaluate` inside `safeElementAction`
(src/index.js:104-119): visibility, actionability and tag name of the
element. -/
structure Interactable where
  isVisible : Bool
  isClickable : Bool
  tagName : String
deriving DecidableEq, Repr

/-- The observable behaviour of one element handle under the steps of
`safeElementAction` (src/index.js:102-161).  Each field is the outcome of
one awaited browser operation; `Except.error msg` means the operation threw
(or, for `action`, timed out) with that message. -/
structure ElementBehavior where
  probe : Except String Interactable
  scroll : Except String Unit
  postScroll : Except String Bool
  action : Except String Unit
deriving DecidableEq, Repr

/-- `safeElementAction(element, action, failureTracker, ...args)`
(src/index.js:102-161).  Returns the JS function's boolean result plus the
updated tracker.  The whole body sits in one `try`; any thrown step lands
in the catch below, which records `INTERACTION_FAILED` (high) and
increments the broken counter.  Note that `incrementTested` runs only
after the initial probe succeeds, and that the post-scroll-still-hidden
branch records a critical failure without incrementing the broken
counter. -/
def safeElementAction (el : ElementBehavior) (action : String)
    (t : FailureTracker) (args : List String := []) :
    Bool × FailureTracker :=
  let _ := args
  let catchWith := fun (msg : String) (t : FailureTracker) =>
    (false,
      (t.addFailure "INTERACTION_FAILED"
        ("Failed to " ++ action ++ ": " ++ msg) Severity.high).incrementBroken)
  match el.probe with
  | Except.error msg => catchWith msg t
  | Except.ok i =>
    let t := t.incrementTested
    if !i.isVisible then
      (false,
        (t.addFailure "HIDDEN_ELEMENT"
          (i.tagName ++ " element exists but is not visible")
          Severity.medium).incrementBroken)
    else if !i.isClickable then
      (false,
        (t.addFailure "DISABLED_ELEMENT"
          (i.tagName ++ " element is disabled or not clickable")
          Severity.medium).incrementBroken)
    else
      match el.scroll with
      | Except.error msg => catchWith msg t
      | Except.ok _ =>
        match el.postScroll with
        | Except.error msg => catchWith msg t
        | Except.ok postScrollVisible =>
          if !postScrollVisible then
            (false,
              t.addFailure "ELEMENT_STILL_HIDDEN_AFTER_SCROLL"
                "Element still not visible after scroll attempt"
                Severity.critical)
          else
            match el.action with
            | Except.error msg => catchWith msg t
            | Except.ok _ => (true, t)

/-- Whether `safeElementAction` would return true on this element (the
boolean result does not depend on the tracker). -/
def elementSucceeds (el : ElementBehavior) : Bool :=
  match el.probe with
  | Except.error _ => false
  | Except.ok i =>
    i.isVisible && i.isClickable &&
    (match el.scroll with
     | Except.error _ => false
     | Except.ok _ =>
       match el.postScroll with
       | Except.error _ => false
       | Except.ok v =>
         v && (match el.action with
               | Except.error _ => false
               | Except.ok _ => true))

/-- Whether the initial interactability probe succeeds. -/
def probeOk (el : ElementBehavior) : Bool :=
  match el.probe with
  | Except.ok _ => true
  | Except.error _ => false

/-- The element reached the post-scroll visibility re-check and failed it:
the one failure path of `safeElementAction` that does not increment the
broken counter (src/index.js:143-147). -/
def postScrollStalls (el : ElementBehavior) : Bool :=
  match el.probe with
  | Except.error _ => false
  | Except.ok i =>
    i.isVisible && i.isClickable &&
    (match el.scroll with
     | Except.error _ => false
     | Except.ok _ =>
       match el.postScroll with
       | Except.error _ => false
       | Except.ok v => !v)

/-! ## Form testing -/

/-- The `formTestData` pools (src/index.js:263-274); unknown input types
fall back to the text pool (`formTestData[type] || formTestData.text`). -/
def formTestData (ty : String) : List String :=
  if ty = "text" then ["John Doe", "Test User", "Sample Input", "Valid Text"]
  else if ty = "email" then
    ["test@example.com", "user@hackclub.com", "valid@email.org"]
  else if ty = "password" then ["SecurePass123!", "TestPassword456#"]
  else if ty = "number" then ["42", "100", "2024"]
  else if ty = "tel" then ["555-123-4567", "(555) 987-6543"]
  else if ty = "url" then ["https://example.com", "https://hackclub.com"]
  else if ty = "search" then ["test search", "sample query"]
  else if ty = "date" then ["2024-01-01", "2023-12-25"]
  else if ty = "time" then ["14:30", "09:15"]
  else if ty = "color" then ["#ff0000", "#00ff00"]
  else ["John Doe", "Test User", "Sample Input", "Valid Text"]

/-- The submit control of a form, when `form.$(...)` finds one: the outcome
of the clickability `evaluate` at src/index.js:335-341 (throwing lands in
the per-form catch). -/
structure SubmitModel where
  clickable : Except String Bool
deriving DecidableEq, Repr

/-- One detected input of a form: its `type` string (from `formInfo.inputs`)
and the outcome of the `form.$(selector)` lookup — throw, null, or an
element handle with its fill behaviour. -/
structure FormInputModel where
  ty : String
  lookup : Except String (Option ElementBehavior)
deriving DecidableEq, Repr

/-- One form as seen by `testAllForms` (src/index.js:278-360).  `pre` is
the combined outcome of `scrollIntoViewIfNeeded` and the `formInfo`
evaluate (a throw in either lands in the per-form catch); `id` is
`formInfo.id`; `submitLookup` is the second `form.$` for the submit
control, consulted only when `hasSubmitButton`. -/
structure FormModel where
  pre : Except String Unit
  id : String
  inputs : List FormInputModel
  hasSubmitButton : Bool
  submitLookup : Except String (Option SubmitModel)
deriving DecidableEq, Repr

/-- The per-input loop of `testAllForms` (src/index.js:303-327), threading
`formInteractionCount` and `formFailures`.  A lookup throw takes the
`inputError` catch (`FORM_INPUT_ERROR`, high); a null lookup is skipped; a
found input is counted as tested, filled through `safeElementAction`, and
on failure adds `FORM_INPUT_FAILED` (high). -/
def formInputsLoop (formId : String) :
    List FormInputModel → Nat → Nat → FailureTracker →
    Nat × Nat × FailureTracker
  | [], count, fails, t => (count, fails, t)
  | i :: rest, count, fails, t =>
    match i.lookup with
    | Except.error msg =>
      formInputsLoop formId rest count (fails + 1)
        (t.addFailure "FORM_INPUT_ERROR"
          ("Error with input " ++ i.ty ++ ": " ++ msg) Severity.high)
    | Except.ok none => formInputsLoop formId rest count fails t
    | Except.ok (some el) =>
      let t := t.incrementTested
      let count := count + 1
      let pool := formTestData i.ty
      let value := pool.getD (count % pool.length) ""
      let r := safeElementAction el "fill" t [value]
      if r.1 then formInputsLoop formId rest count fails r.2
      else
        formInputsLoop formId rest count (fails + 1)
          (r.2.addFailure "FORM_INPUT_FAILED"
            ("Cannot interact with " ++ i.ty ++ " input in form " ++ formId)
            Severity.high)

/-- The `FORM_MOSTLY_BROKEN` check (src/index.js:352-355).  The JS float
comparison `formFailures > formInteractionCount / 2` on naturals is exactly
`count < 2 * fails`. -/
def mostlyBrokenCheck (formId : String) (count fails : Nat)
    (t : FailureTracker) : FailureTracker :=
  if count < 2 * fails then
    t.addFailure "FORM_MOSTLY_BROKEN"
      ("Form " ++ formId ++ " has " ++ toString fails ++ "/" ++
        toString count ++ " broken elements") Severity.critical
  else t

/-- Testing of one form (body of the `for formIndex` loop,
src/index.js:279-359).  The `formError` catch converts a throw in the
pre-step, the submit lookup, or the submit clickability evaluate into a
single `FORM_TEST_ERROR` (high), skipping the rest of the form.  The JS
float comparison `formFailures / formInteractionCount > 0.8` on naturals is
exactly `4 * count < 5 * fails` (at the representable sizes here the float
and exact comparisons agree). -/
def testOneForm (formIndex : Nat) (f : FormModel) (t : FailureTracker) :
    FailureTracker :=
  let formErr := fun (msg : String) (t : FailureTracker) =>
    t.addFailure "FORM_TEST_ERROR"
      ("Could not test form " ++ toString formIndex ++ ": " ++ msg)
      Severity.high
  match f.pre with
  | Except.error msg => formErr msg t
  | Except.ok _ =>
    let r := formInputsLoop f.id f.inputs 0 0 t
    let count := r.1
    let fails := r.2.1
    let t := r.2.2
    let t :=
      if decide (20 < count) && decide (4 * count < 5 * fails) then
        t.addFailure "FORM_STUCK"
          ("Form " ++ f.id ++
            " appears stuck (too many retries with invisible elements)")
          Severity.critical
      else t
    if f.hasSubmitButton then
      match f.submitLookup with
      | Except.error msg => formErr msg t
      | Except.ok none => mostlyBrokenCheck f.id count fails t
      | Except.ok (some sm) =>
        let t := t.incrementTested
        match sm.clickable with
        | Except.error msg => formErr msg t
        | Except.ok isClickable =>
          if !isClickable then
            mostlyBrokenCheck f.id count (fails + 1)
              (t.addFailure "SUBMIT_BUTTON_DISABLED"
                ("Submit button in form " ++ f.id ++ " is not clickable")
                Severity.critical)
          else mostlyBrokenCheck f.id count fails t
    else
      mostlyBrokenCheck f.id count fails
        (t.addFailure "NO_SUBMIT_BUTTON"
          ("Form " ++ f.id ++ " has no submit button") Severity.medium)

/-- `testAllForms(page, failureTracker)` (src/index.js:261-365).  The
outer `page.$$('form')` can throw (`FORM_TESTING_FAILED`, medium);
otherwise each form is tested in order with its index. -/
def testAllForms (formsResult : Except String (List FormModel))
    (t : FailureTracker) : FailureTracker :=
  match formsResult with
  | Except.error msg =>
    t.addFailure "FORM_TESTING_FAILED" ("Form testing failed: " ++ msg)
      Severity.medium
  | Except.ok forms =>
    (forms.enum).foldl (fun t p => testOneForm p.1 p.2 t) t

/-! ## Interactive element testing -/

/-- One element of a selector class as iterated by
`testAllInteractiveElements` (src/index.js:383-428).  `info`, `scrollIVN`
and `hover` are the three awaited steps before the click attempt (a throw
in any of them lands in the `elementError` catch); `beh` is the element's
behaviour inside `safeElementAction('click')`; `modal` is the outcome of
the post-click modal probe: a throw, no modal, or a modal whose first
matching close control (if any) carries its own click behaviour. -/
structure ClickableElement where
  info : Except String Unit
  scrollIVN : Except String Unit
  hover : Except String Unit
  beh : ElementBehavior
  modal : Except String (Option (Option ElementBehavior))
deriving DecidableEq, Repr

/-- The fixed `buttonSelectors` list (src/index.js:368-378). -/
def buttonSelectors : List String :=
  ["button:not([disabled])",
   "input[type=\"submit\"]:not([disabled])",
   "input[type=\"button\"]:not([disabled])",
   "[role=\"button\"]:not([disabled])",
   ".btn:not([disabled]):not(.disabled)",
   ".button:not([disabled]):not(.disabled)",
   "a[href]:not([href=\"#\"]):not([href^=\"javascript:void\"])",
   "[onclick]:not([disabled])",
   "[data-action]:not([disabled])"]

/-- Body of the per-element loop of `testAllInteractiveElements`
(src/index.js:383-428).  Returns the updated tracker and whether the
primary `safeElementAction('click')` attempt on this element was reached
(the observable the per-class bound claim is about).  A modal found after a
successful click triggers one close-control click through
`safeElementAction` (src/index.js:406-421). -/
def testOneClickable (e : ClickableElement) (t : FailureTracker) :
    FailureTracker × Bool :=
  let elemErr := fun (msg : String) (t : FailureTracker) =>
    (t.addFailure "ELEMENT_INTERACTION_ERROR"
      ("Error testing element: " ++ msg) Severity.high, false)
  match e.info with
  | Except.error msg => elemErr msg t
  | Except.ok _ =>
    match e.scrollIVN with
    | Except.error msg => elemErr msg t
    | Except.ok _ =>
      match e.hover with
      | Except.error msg => elemErr msg t
      | Except.ok _ =>
        let r := safeElementAction e.beh "click" t
        let clickSuccess := r.1
        let t := r.2
        if clickSuccess then
          match e.modal with
          | Except.error msg =>
            ((t.addFailure "ELEMENT_INTERACTION_ERROR"
              ("Error testing element: " ++ msg) Severity.high), true)
          | Except.ok none => (t, true)
          | Except.ok (some none) => (t, true)
          | Except.ok (some (some closeBtn)) =>
            ((safeElementAction closeBtn "click" t).2, true)
        else (t, true)

/-- The per-selector loop of `testAllInteractiveElements`
(src/index.js:379-433): a throw of `page.$$(selector)` is the
`selectorError` catch (`SELECTOR_ERROR`, medium); otherwise each matched
element is exercised in order.  The second component counts the elements
on which the primary click attempt was made. -/
def testSelectorClass (selector : String)
    (res : Except String (List ClickableElement)) (t : FailureTracker) :
    FailureTracker × Nat :=
  match res with
  | Except.error msg =>
    (t.addFailure "SELECTOR_ERROR"
      ("Error with selector " ++ selector ++ ": " ++ msg) Severity.medium, 0)
  | Except.ok es =>
    es.foldl
      (fun acc e =>
        let r := testOneClickable e acc.1
        (r.1, if r.2 then acc.2 + 1 else acc.2))
      (t, 0)

/-- `testAllInteractiveElements(page, failureTracker)`
(src/index.js:366-434).  `pg` maps each selector to the outcome of
`page.$$(selector)`.  Besides the tracker, the result carries, per selector
class, how many click attempts were made — there is no cap in the source:
the loop runs over every matched element. -/
def testAllInteractiveElements
    (pg : String → Except String (List ClickableElement))
    (t : FailureTracker) : FailureTracker × List (String × Nat) :=
  buttonSelectors.foldl
    (fun acc s =>
      let r := testSelectorClass s (pg s) acc.1
      (r.1, acc.2 ++ [(s, r.2)]))
    (t, [])

/-- Elements whose three pre-click steps all succeed, i.e. exactly those on
which `testOneClickable` reaches the primary click attempt. -/
def reachesClick (e : ClickableElement) : Bool :=
  (match e.info with | Except.ok _ => true | Except.error _ => false) &&
  (match e.scrollIVN with | Except.ok _ => true | Except.error _ => false) &&
  (match e.hover with | Except.ok _ => true | Except.error _ => false)

/-- Number of click attempts `testSelectorClass` makes on a class. -/
def classAttempts (res : Except String (List ClickableElement)) : Nat :=
  match res with
  | Except.error _ => 0
  | Except.ok es => (es.filter reachesClick).length

/-! ## Scrolling and JS-error check -/

/-- The page data consumed by `performHumanLikeScrolling`
(src/index.js:162-211): the initial metrics evaluate, then for each of the
8 sections a scroll evaluate and a discovery evaluate
(`discoverNewInteractiveElements`, whose own catch records
`ELEMENT_DISCOVERY_FAILED` low and keeps going), then the final
scroll-to-top evaluate.  A throw of a scroll evaluate is caught by the
function's outer catch (`SCROLLING_ERROR`, medium) and ends the loop. -/
structure ScrollModel where
  pageInfo : Except String (Nat × Nat)
  sections : List (Except String Unit × Except String Nat)
  finalScroll : Except String Unit
deriving DecidableEq, Repr

/-- The section loop of `performHumanLikeScrolling`
(src/index.js:176-204).  Returns the tracker plus whether the outer catch
fired (aborting the rest of the function). -/
def scrollSectionsLoop :
    List (Except String Unit × Except String Nat) → FailureTracker →
    FailureTracker × Bool
  | [], t => (t, false)
  | (sc, disc) :: rest, t =>
    match sc with
    | Except.error msg =>
      (t.addFailure "SCROLLING_ERROR" ("Scrolling failed: " ++ msg)
        Severity.medium, true)
    | Except.ok _ =>
      let t :=
        match disc with
        | Except.error msg =>
          t.addFailure "ELEMENT_DISCOVERY_FAILED"
            ("Could not discover elements: " ++ msg) Severity.low
        | Except.ok _ => t
      scrollSectionsLoop rest t

/-- `performHumanLikeScrolling(page, failureTracker)`
(src/index.js:162-211).  The source always walks exactly 8 sections; the
model walks the first 8 entries of `m.sections`. -/
def performHumanLikeScrolling (m : ScrollModel) (t : FailureTracker) :
    FailureTracker :=
  match m.pageInfo with
  | Except.error msg =>
    t.addFailure "SCROLLING_ERROR" ("Scrolling failed: " ++ msg)
      Severity.medium
  | Except.ok (scrollHeight, clientHeight) =>
    if scrollHeight ≤ clientHeight then t
    else
      let r := scrollSectionsLoop (m.sections.take 8) t
      if r.2 then r.1
      else
        match m.finalScroll with
        | Except.error msg =>
          r.1.addFailure "SCROLLING_ERROR" ("Scrolling failed: " ++ msg)
            Severity.medium
        | Except.ok _ => r.1

/-- The two page evaluations of `checkForJavaScriptErrors`
(src/index.js:528-552): the `window.jsErrors` count, and the
console-monkeypatch evaluate whose returned array is always empty at the
time it is serialised (so it contributes 0 errors). -/
structure JsCheckModel where
  jsErrors : Except String Nat
  consolePatch : Except String Unit
deriving DecidableEq, Repr

/-- `checkForJavaScriptErrors(page, failureTracker, pageUrl = 'main')`
(src/index.js:528-552).  `totalErrors` is the `window.jsErrors` count (the
console-patch evaluate always returns an empty list). -/
def checkForJavaScriptErrors (m : JsCheckModel) (pageUrl : String)
    (t : FailureTracker) : FailureTracker :=
  match m.jsErrors with
  | Except.error msg =>
    t.addWarning ("Could not check for JS errors: " ++ msg) (some pageUrl)
  | Except.ok n =>
    match m.consolePatch with
    | Except.error msg =>
      t.addWarning ("Could not check for JS errors: " ++ msg) (some pageUrl)
    | Except.ok _ =>
      let totalErrors := n + 0
      if TESTING_CONFIG.CRITICAL_ERROR_THRESHOLD < totalErrors then
        t.addFailure "EXCESSIVE_JS_ERRORS"
          ("Page has " ++ toString totalErrors ++ " JavaScript errors")
          Severity.critical (some pageUrl)
      else if 0 < totalErrors then
        t.addWarning (toString totalErrors ++ " JavaScript errors detected")
          (some pageUrl)
      else t

/-! ## Judge response parsing and the decision phase -/

/-- Case-insensitive literal match of `pat` at the head of `s`, returning
the rest of `s` on success. -/
def matchCI : List Char → List Char → Option (List Char)
  | [], s => some s
  | _ :: _, [] => none
  | p :: ps, c :: cs => if c.toLower = p.toLower then matchCI ps cs else none

/-- Greedy `\s*`: drop leading JS whitespace (space, tab, CR, LF, FF, VT). -/
def skipWs : List Char → List Char
  | [] => []
  | c :: cs =>
    if c = ' ' ∨ c = '\t' ∨ c = '\n' ∨ c = '\r' ∨ c = '\x0c' ∨ c = '\x0b'
    then skipWs cs else c :: cs

/-- Does `RESULT:` followed by optional whitespace followed by `verdict`
match at the head of `s` (all case-insensitive)? -/
def matchResultHere (verdict : List Char) (s : List Char) : Bool :=
  match matchCI "RESULT:".toList s with
  | none => false
  | some rest => (matchCI verdict (skipWs rest)).isSome

/-- Search for `RESULT:`, optional whitespace, then the verdict word,
anywhere in the character list, all case-insensitive.  Since the regex's
whitespace star is greedy and the verdict starts with a letter, greedy
whitespace skipping is equivalent to the regex. -/
def searchResult (verdict : List Char) : List Char → Bool
  | [] => matchResultHere verdict []
  | c :: cs => matchResultHere verdict (c :: cs) || searchResult verdict cs

/-- `/RESULT:\s*PASS/i.test(raw)` (src/index.js:808). -/
def matchesResultPass (raw : String) : Bool :=
  searchResult "PASS".toList raw.toList

/-- `/RESULT:\s*FAIL/i.test(raw)` (src/index.js:810). -/
def matchesResultFail (raw : String) : Bool :=
  searchResult "FAIL".toList raw.toList

/-- `raw.match(/REASON:\s*(.+)/i)` followed by `.trim()`
(src/index.js:812-813): the first occurrence of `REASON:`, whitespace
skipped greedily, then the rest of that line, trimmed; `none` when the
line has nothing left.  (The regex backtracking case where `\s*` yields
whitespace back to `(.+)` produces a string that trims to empty and is
immaterial to every claim.) -/
def extractReason : List Char → Option String
  | [] => none
  | c :: cs =>
    match matchCI "REASON:".toList (c :: cs) with
    | some rest =>
      let line := (skipWs rest).takeWhile (fun ch => ch ≠ '\n')
      if line.isEmpty then extractReason cs
      else some (String.mk line).trim
    | none => extractReason cs

/-- Outcome of the OpenAI judge call in the batch-review decision phase
(src/index.js:789-823): the key may be unset (no call at all), the fetch
may throw (timeout and network errors), the HTTP response may be not-ok,
or a body may come back whose content is then matched against the
`RESULT:` protocol. -/
inductive JudgeOutcome where
  | noKey
  | notOk
  | throwErr (msg : String)
  | ok (content : String)
deriving DecidableEq, Repr

/-- The verdict the judge's outcome parses to: `some "PASS"`,
`some "FAIL"`, or `none` when the judge is unavailable (no key, failed
call) or its response matches neither pattern. -/
def judgeVerdict : JudgeOutcome → Option String
  | JudgeOutcome.noKey => none
  | JudgeOutcome.notOk => none
  | JudgeOutcome.throwErr _ => none
  | JudgeOutcome.ok content =>
    if matchesResultPass content then some "PASS"
    else if matchesResultFail content then some "FAIL"
    else none

/-- The judge call failed outright (HTTP not-ok or thrown fetch): the two
paths of the source that record a degraded-evaluation warning. -/
def judgeCallFailed : JudgeOutcome → Bool
  | JudgeOutcome.notOk => true
  | JudgeOutcome.throwErr _ => true
  | _ => false

/-- The judge returned an HTTP-ok body that matches neither
`RESULT: PASS` nor `RESULT: FAIL`. -/
def judgeUnparsed : JudgeOutcome → Bool
  | JudgeOutcome.ok content =>
    !matchesResultPass content && !matchesResultFail content
  | _ => false

/-- The decision phase of the batch-review attempt (src/index.js:786-839):
starts from `finalDecision = 'PASS'`, lets a parsed judge response set
PASS or FAIL (recording a warning when the call fails), then forces FAIL
whenever the snapshot's `shouldFail` is set, synthesising a reason from
the ledger when the judge gave none.  `status` is the root page's HTTP
status.  Returns `(finalDecision, aiReason, tracker)`.  The JS float
comparison `brokenElementRatio > 0.3` is modelled exactly on the
rational. -/
def decisionPhase (j : JudgeOutcome) (status : Nat) (t : FailureTracker) :
    String × Option String × FailureTracker :=
  let summary := t.getSummary
  let afterJudge : String × Option String × FailureTracker :=
    match j with
    | JudgeOutcome.noKey => ("PASS", none, t)
    | JudgeOutcome.ok content =>
      if matchesResultPass content then ("PASS", none, t)
      else if matchesResultFail content then
        ("FAIL",
          some (match extractReason content.toList with
                | some r => r
                | none => "Critical functionality issues detected"), t)
      else ("PASS", none, t)
    | JudgeOutcome.notOk =>
      ("PASS", none,
        t.addWarning "AI evaluation unavailable, using local evaluation" none)
    | JudgeOutcome.throwErr _ =>
      ("PASS", none,
        t.addWarning "AI evaluation failed, using local evaluation" none)
  let fd := afterJudge.1
  let aiReason := afterJudge.2.1
  let t := afterJudge.2.2
  if summary.summaryShouldFail then
    let aiReason :=
      match aiReason with
      | some r => some r
      | none =>
        let reasons :=
          (if 0 < summary.criticalFailures then
            [toString summary.criticalFailures ++ " critical failures"]
          else []) ++
          (if (3 : Rat) < 10 * summary.brokenElementFrac then
            ["broken elements ratio above threshold"]
          else []) ++
          (if 400 ≤ status then
            ["HTTP " ++ toString status ++ " error"]
          else [])
        if reasons.isEmpty then some "Multiple functionality issues"
        else some (String.intercalate ", " reasons)
    ("FAIL", aiReason, t)
  else (fd, aiReason, t)

/-! ## Session retry loop -/

/-- One result entry pushed to the batch `results` array, restricted to
the fields the claims are about (src/index.js:886-915 and 940-949). -/
structure PushedResult where
  finalDecision : String
  combinedReasons : Option String
deriving DecidableEq, Repr

/-- What the k-th executed attempt of a session would do: complete (the
try block runs to `success = true`, pushing its result) or throw with a
message. -/
inductive AttemptOutcome where
  | ok (r : PushedResult)
  | err (msg : String)

/-- The `while (!success && attempts < maxAttempts)` loop of the
batch-review session (src/index.js:637-960), with the page pipeline
abstracted to its outcome.  Mirrors the source exactly: `attempts` is
incremented at the top; if it then equals `maxAttempts` the loop records
`MAX_ATTEMPTS_REACHED` (critical) and breaks before opening a page; the
catch pushes the `Test execution failed` FAIL result only when
`attempts === maxAttempts`, and otherwise sleeps and retries. -/
def attemptLoopGo (outcomes : Nat → AttemptOutcome) (maxAttempts : Nat) :
    Nat → Bool → Nat → FailureTracker → List PushedResult →
    FailureTracker × List PushedResult
  | 0, _, _, t, results => (t, results)
  | gas + 1, success, attempts, t, results =>
    if success = true ∨ maxAttempts ≤ attempts then (t, results)
    else
      let a := attempts + 1
      if a = maxAttempts then
        (t.addFailure "MAX_ATTEMPTS_REACHED"
          "Test got stuck and exceeded max attempts" Severity.critical,
         results)
      else
        match outcomes a with
        | AttemptOutcome.ok r =>
          attemptLoopGo outcomes maxAttempts gas true a t (results ++ [r])
        | AttemptOutcome.err msg =>
          if a = maxAttempts then
            attemptLoopGo outcomes maxAttempts gas false a t
              (results ++
                [{ finalDecision := "FAIL"
                   combinedReasons := some ("Test execution failed: " ++ msg) }])
          else attemptLoopGo outcomes maxAttempts gas false a t results

/-- One session of the batch loop (src/index.js:633-960): fresh tracker,
`success = false`, `attempts = 0`, `maxAttempts` as given (2 in the
source).  The first argument of `attemptLoopGo` is fuel for structural
recursion only: `attempts` strictly increases each iteration and the loop
exits once it reaches `maxAttempts`, so the loop iterates at most
`maxAttempts` times and `maxAttempts + 1` units can never run out. -/
def attemptLoop (outcomes : Nat → AttemptOutcome) (maxAttempts : Nat) :
    FailureTracker × List PushedResult :=
  attemptLoopGo outcomes maxAttempts (maxAttempts + 1) false 0 initTracker []

/-! ## Crawl traversal -/

/-- Case-sensitive substring search, the model of JS
`String.prototype.includes`. -/
def matchCS : List Char → List Char → Bool
  | [], _ => true
  | _ :: _, [] => false
  | p :: ps, c :: cs => c = p && matchCS ps cs

/-- `s.includes(pat)`. -/
def strIncludesL (pat : List Char) : List Char → Bool
  | [] => matchCS pat []
  | c :: cs => matchCS pat (c :: cs) || strIncludesL pat cs

/-- `s.includes(pat)` on strings. -/
def strIncludes (s pat : String) : Bool :=
  strIncludesL pat.toList s.toList

/-- The binary/document extensions excluded by the crawl's link filter
(src/index.js:472). -/
def binaryExts : List String :=
  ["pdf", "jpg", "jpeg", "png", "gif", "svg", "zip", "doc", "docx",
   "xls", "xlsx", "ppt", "pptx", "mp4", "avi"]

/-- `href.match(/\.(pdf|jpg|...)$/i)`: the URL ends with a dot and one of
the listed extensions, case-insensitively. -/
def hasBinaryExt (href : String) : Bool :=
  binaryExts.any (fun e => href.toLower.endsWith ("." ++ e))

/-- One anchor element of a page, as harvested by the link-extraction
evaluate (src/index.js:442-451): its resolved absolute `href` and whether
it sits inside a navigational container (`a.closest('nav, .navigation,
.navbar, .menu, header, .header')`).  The anchor text is only logged and
not modelled. -/
structure Anchor where
  href : String
  inNav : Bool
deriving DecidableEq, Repr

/-- A processed link candidate (src/index.js:454-465): the resolved URL
and whether its hostname equals the base URL's hostname. -/
structure LinkInfo where
  href : String
  isInternal : Bool
deriving DecidableEq, Repr

/-- `processLinks` (src/index.js:452-476): map each anchor to its resolved
link, then filter to internal links with none of `#`, `mailto:`, `tel:`, a
binary extension, an already-visited URL, or the base URL itself.
Hostnames are supplied by the `host` function of the web model (anchors
carry browser-resolved absolute URLs, so `new URL` cannot throw on them).
-/
def processLinks (host : String → String) (base : String)
    (visited : List String) (anchors : List Anchor) : List LinkInfo :=
  (anchors.map (fun a =>
    { href := a.href, isInternal := host a.href = host base : LinkInfo }))
  |>.filter (fun l =>
    l.isInternal &&
    !strIncludes l.href "#" &&
    !strIncludes l.href "mailto:" &&
    !strIncludes l.href "tel:" &&
    !hasBinaryExt l.href &&
    !visited.contains l.href &&
    !(l.href = base : Bool))

/-- The dedup pass over prioritized links (src/index.js:481-488): keep the
first occurrence of each URL, preserving order. -/
def dedupeLinks : List LinkInfo → List String → List LinkInfo
  | [], _ => []
  | l :: ls, seen =>
    if seen.contains l.href then dedupeLinks ls seen
    else l :: dedupeLinks ls (l.href :: seen)

/-- The full link-extraction evaluate of the crawl (src/index.js:442-490):
nav-container links first, then the rest, processed, deduplicated, and
capped at 10 candidates. -/
def extractLinks (host : String → String) (base : String)
    (visited : List String) (anchors : List Anchor) : List LinkInfo :=
  let navLinks := anchors.filter (fun a => a.inNav)
  let otherLinks := anchors.filter (fun a => !a.inNav)
  let prioritized :=
    processLinks host base visited navLinks ++
    processLinks host base visited otherLinks
  (dedupeLinks prioritized []).take 10

/-- Everything the engine observes about one URL's page: the inputs of the
four per-page test passes run by the crawl (src/index.js:511-514). -/
structure PageModel where
  scrollModel : ScrollModel
  formsModel : Except String (List FormModel)
  interactiveModel : String → Except String (List ClickableElement)
  jsModel : JsCheckModel

/-- The external web as the engine sees it: hostnames of URLs, the
link-extraction evaluate per page (which can throw), the `page.goto`
outcome per URL (`Except.error` = navigation exception, otherwise the
response status, with a null response read as status 0), and the page
content models. -/
structure Web where
  host : String → String
  anchors : String → Except String (List Anchor)
  navigate : String → Except String Nat
  page : String → PageModel

/-- The four per-page test passes the crawl runs on a freshly navigated
page (src/index.js:511-514). -/
def runPageTests (web : Web) (url : String) (t : FailureTracker) :
    FailureTracker :=
  let pm := web.page url
  let t := performHumanLikeScrolling pm.scrollModel t
  let t := testAllForms pm.formsModel t
  let t := (testAllInteractiveElements pm.interactiveModel t).1
  checkForJavaScriptErrors pm.jsModel url t

/-- The crawl's mutable state: the session's `visitedUrls` set (a list,
duplicate-free by construction of its only insertion point), the shared
failure tracker, and two observers used by the theorems: `navLog`, the
URLs passed to `page.goto` by the crawl in order, and `callDepths`, the
`currentDepth` of every recursive activation that passed the entry
guard. -/
structure CrawlState where
  visited : List String
  tracker : FailureTracker
  navLog : List String
  callDepths : List Nat

/-- The per-candidate loop body of the crawl (src/index.js:492-522),
parameterised over the recursive call `recurse` (applied when
`currentDepth < maxDepth - 1`).  Each candidate is skipped when already
visited or when the page cap is reached; otherwise it is marked visited
and pushed to `pagesVisited` before `page.goto`; a navigation throw is
`NAVIGATION_ERROR` (high), an HTTP status >= 400 is `PAGE_LOAD_FAILED`
(critical) with no descent; otherwise the page passes are run and the
crawl recurses if depth remains. -/
def crawlLinksLoop (web : Web) (recurse : String → CrawlState → CrawlState)
    (doRecurse : Bool) : List LinkInfo → CrawlState → CrawlState
  | [], st => st
  | l :: ls, st =>
    if st.visited.contains l.href ∨
       TESTING_CONFIG.MAX_PAGES_TO_TEST ≤ st.visited.length then
      crawlLinksLoop web recurse doRecurse ls st
    else
      let st :=
        { st with
          visited := st.visited ++ [l.href]
          tracker := st.tracker.pushPageVisited l.href
          navLog := st.navLog ++ [l.href] }
      match web.navigate l.href with
      | Except.error msg =>
        crawlLinksLoop web recurse doRecurse ls
          { st with
            tracker :=
              st.tracker.addFailure "NAVIGATION_ERROR"
                ("Cannot navigate to " ++ l.href ++ ": " ++ msg)
                Severity.high (some l.href) }
      | Except.ok status =>
        if 400 ≤ status then
          crawlLinksLoop web recurse doRecurse ls
            { st with
              tracker :=
                st.tracker.addFailure "PAGE_LOAD_FAILED"
                  ("Page " ++ l.href ++ " returned HTTP " ++ toString status)
                  Severity.critical (some l.href) }
        else
          let st := { st with tracker := runPageTests web l.href st.tracker }
          let st := if doRecurse then recurse l.href st else st
          crawlLinksLoop web recurse doRecurse ls st

/-- `performComprehensiveNavigation(page, baseUrl, failureTracker,
maxDepth, currentDepth, visitedUrls)` (src/index.js:435-527).  Returns at
once when the depth or page budget is exhausted; otherwise extracts link
candidates (a throw is `COMPREHENSIVE_NAV_ERROR`, medium) and walks them.
`callDepths` records the depth of each activation that does work. -/
def performComprehensiveNavigation (web : Web) (maxDepth : Nat) :
    Nat → String → CrawlState → CrawlState := fun currentDepth base st =>
  if hguard : maxDepth ≤ currentDepth ∨
      TESTING_CONFIG.MAX_PAGES_TO_TEST ≤ st.visited.length then st
  else
    let st := { st with callDepths := st.callDepths ++ [currentDepth] }
    match web.anchors base with
    | Except.error msg =>
      { st with
        tracker :=
          st.tracker.addFailure "COMPREHENSIVE_NAV_ERROR"
            ("Navigation system failed: " ++ msg) Severity.medium }
    | Except.ok anchors =>
      let links := extractLinks web.host base st.visited anchors
      crawlLinksLoop web
        (performComprehensiveNavigation web maxDepth (currentDepth + 1))
        (decide (currentDepth < maxDepth - 1)) links st
termination_by currentDepth _ _ => maxDepth - currentDepth
decreasing_by
  simp only [not_or, not_le] at hguard
  omega

/-- The crawl as started from the batch-review root (src/index.js:764):
empty visited set, depth 0. -/
def crawlFromRoot (web : Web) (maxDepth : Nat) (base : String)
    (t : FailureTracker) : CrawlState :=
  performComprehensiveNavigation web maxDepth 0 base
    { visited := [], tracker := t, navLog := [], callDepths := [] }

/-! ## Concrete inputs used by witnesses and counterexamples -/

/-- A healthy element: visible, actionable, still visible after
scrolling, action completes. -/
def elGood : ElementBehavior :=
  { probe := Except.ok { isVisible := true, isClickable := true, tagName := "button" }
    scroll := Except.ok ()
    postScroll := Except.ok true
    action := Except.ok () }

/-- A disabled element: visible but not clickable. -/
def elDisabled : ElementBehavior :=
  { probe := Except.ok { isVisible := true, isClickable := false, tagName := "input" }
    scroll := Except.ok ()
    postScroll := Except.ok true
    action := Except.ok () }

/-- An element whose very first interactability probe throws (for example
because the element handle is detached after a navigation). -/
def elProbeThrows : ElementBehavior :=
  { probe := Except.error "Execution context was destroyed"
    scroll := Except.ok ()
    postScroll := Except.ok true
    action := Except.ok () }

/-- A hidden element: the probe reports it invisible. -/
def elHidden : ElementBehavior :=
  { probe := Except.ok { isVisible := false, isClickable := true, tagName := "a" }
    scroll := Except.ok ()
    postScroll := Except.ok true
    action := Except.ok () }

/-- An element that passes the probe but is no longer visible after the
scroll-into-view: the one failure path that skips `incrementBroken`. -/
def elStillHidden : ElementBehavior :=
  { probe := Except.ok { isVisible := true, isClickable := true, tagName := "button" }
    scroll := Except.ok ()
    postScroll := Except.ok false
    action := Except.ok () }

/-- The Scenario C form: 5 text inputs, 4 of them disabled, one healthy,
with a present and clickable submit control. -/
def scenarioForm : FormModel :=
  { pre := Except.ok ()
    id := "form-0"
    inputs :=
      [{ ty := "text", lookup := Except.ok (some elDisabled) },
       { ty := "text", lookup := Except.ok (some elDisabled) },
       { ty := "text", lookup := Except.ok (some elDisabled) },
       { ty := "text", lookup := Except.ok (some elDisabled) },
       { ty := "text", lookup := Except.ok (some elGood) }]
    hasSubmitButton := true
    submitLookup := Except.ok (some { clickable := Except.ok true }) }

/-- A healthy clickable element for the interactive-element loop: all
pre-click steps succeed, the click succeeds, no modal opens. -/
def clickableGood : ClickableElement :=
  { info := Except.ok ()
    scrollIVN := Except.ok ()
    hover := Except.ok ()
    beh := elGood
    modal := Except.ok none }

/-- A page with four healthy buttons in the first selector class and
nothing else: more elements in one class than any 2-3 per-class cap
allows. -/
def pageFourButtons : String → Except String (List ClickableElement) :=
  fun s =>
    if s = "button:not([disabled])" then
      Except.ok [clickableGood, clickableGood, clickableGood, clickableGood]
    else Except.ok []

/-- A ledger holding one critical failure (as the orchestrator records for
a root HTTP error, src/index.js:713-716). -/
def trackerCritical : FailureTracker :=
  initTracker.addFailure "HTTP_ERROR" "Page returned HTTP 404"
    Severity.critical none

/-- A clickable element whose probe reports it hidden. -/
def clickableHidden : ClickableElement :=
  { info := Except.ok ()
    scrollIVN := Except.ok ()
    hover := Except.ok ()
    beh := elHidden
    modal := Except.ok none }

/-- A clickable element whose interactability probe throws. -/
def clickableProbeThrows : ClickableElement :=
  { info := Except.ok ()
    scrollIVN := Except.ok ()
    hover := Except.ok ()
    beh := elProbeThrows
    modal := Except.ok none }

/-- A form with one healthy input and no submit control. -/
def formNoSubmit : FormModel :=
  { pre := Except.ok ()
    id := "form-1"
    inputs := [{ ty := "text", lookup := Except.ok (some elGood) }]
    hasSubmitButton := false
    submitLookup := Except.ok none }

/-- A form with one healthy input and a present but non-clickable submit
control. -/
def formDisabledSubmit : FormModel :=
  { pre := Except.ok ()
    id := "form-2"
    inputs := [{ ty := "text", lookup := Except.ok (some elGood) }]
    hasSubmitButton := true
    submitLookup := Except.ok (some { clickable := Except.ok false }) }

/-! ## Observers used by the theorems -/

/-- The input was found by its `form.$` lookup (so it is attempted:
counted into `formInteractionCount`). -/
def inputOkSome (i : FormInputModel) : Bool :=
  match i.lookup with
  | Except.ok (some _) => true
  | _ => false

/-- The input was found and its fill attempt fails. -/
def inputFillFails (i : FormInputModel) : Bool :=
  match i.lookup with
  | Except.ok (some el) => !elementSucceeds el
  | _ => false

/-- The input's `form.$` lookup throws. -/
def inputLookupThrows (i : FormInputModel) : Bool :=
  match i.lookup with
  | Except.error _ => true
  | _ => false

/-- Number of a form's inputs that are attempted. -/
def attemptedInputs (f : FormModel) : Nat :=
  (f.inputs.filter inputOkSome).length

/-- Number of a form's attempted inputs whose fill fails. -/
def failedAttemptedInputs (f : FormModel) : Nat :=
  (f.inputs.filter inputFillFails).length

/-- Number of a form's inputs whose lookup throws. -/
def erroredInputs (f : FormModel) : Nat :=
  (f.inputs.filter inputLookupThrows).length

/-- The submit-control phase of the form runs without a throw (so the
per-form catch does not cut the form test short). -/
def submitPathClean (f : FormModel) : Bool :=
  if f.hasSubmitButton then
    match f.submitLookup with
    | Except.error _ => false
    | Except.ok none => true
    | Except.ok (some sm) =>
      match sm.clickable with
      | Except.error _ => false
      | Except.ok _ => true
  else true

/-- The ledger holds a failure record of the given type and severity. -/
def hasFailureRecord (t : FailureTracker) (ty : String) (sev : Severity) :
    Bool :=
  t.failures.any (fun f => decide (f.type = ty) && decide (f.severity = sev))

/-- The invariant of the crawl state: the visited set is duplicate-free,
the navigation log coincides with it, the page budget is respected, and
every activation so far ran strictly below `maxDepth`. -/
def CrawlInv (maxDepth : Nat) (st : CrawlState) : Prop :=
  st.visited.Nodup ∧
  st.navLog = st.visited ∧
  st.visited.length ≤ TESTING_CONFIG.MAX_PAGES_TO_TEST ∧
  ∀ d ∈ st.callDepths, d < maxDepth

/-! ## Helper lemmas -/

/-- In every reachable ledger state, the `criticalFailures` array is
exactly the critical-severity slice of `failures` (both are written only
by `addFailure`). -/
theorem reachable_critical_eq_filter {t : FailureTracker}
    (h : ReachableOps t) :
    t.criticalFailures =
      t.failures.filter (fun f => decide (f.severity = Severity.critical)) := by
  induction h with
  | init => rfl
  | addFailure type message severity page h ih =>
    by_cases hs : severity = Severity.critical <;>
      simp [FailureTracker.addFailure, List.filter_append, hs, ih]
  | addWarning message page h ih => simpa [FailureTracker.addWarning] using ih
  | incrementTested h ih => simpa [FailureTracker.incrementTested] using ih
  | incrementBroken h ih => simpa [FailureTracker.incrementBroken] using ih
  | pushPageVisited url h ih =>
    simpa [FailureTracker.pushPageVisited] using ih

/-! ## C1: `shouldFail` threshold characterisation -/

/-- **C1.** For every reachable ledger state, `shouldFail()` is true if
and only if at least one critical-severity failure exists, or the broken
element count reaches `BROKEN_ELEMENT_THRESHOLD`, or the number of
high-severity failure records reaches `CRITICAL_ERROR_THRESHOLD`; the
source thresholds are 2 and 3.  `FailureTracker.shouldFail` is by
construction a pure function of the ledger state — no network or judge
input occurs in its definition. -/
theorem shouldFail_iff_thresholds (t : FailureTracker)
    (h : ReachableOps t) :
    (t.shouldFail = true ↔
      (1 ≤ (t.failures.filter
              (fun f => decide (f.severity = Severity.critical))).length ∨
       TESTING_CONFIG.BROKEN_ELEMENT_THRESHOLD ≤ t.brokenElements ∨
       TESTING_CONFIG.CRITICAL_ERROR_THRESHOLD ≤
         (t.failures.filter
           (fun f => decide (f.severity = Severity.high))).length)) ∧
    TESTING_CONFIG.BROKEN_ELEMENT_THRESHOLD = 2 ∧
    TESTING_CONFIG.CRITICAL_ERROR_THRESHOLD = 3 := by
  refine ⟨?_, rfl, rfl⟩
  rw [FailureTracker.shouldFail, reachable_critical_eq_filter h]
  simp [Nat.lt_iff_add_one_le, or_assoc]

/-- Witness for C1 at a concrete reachable ledger: one critical failure
alone makes `shouldFail` true. -/
theorem shouldFail_iff_thresholds_witness :
    trackerCritical.shouldFail = true :=
  ((shouldFail_iff_thresholds trackerCritical
      (ReachableOps.addFailure _ _ _ _ ReachableOps.init)).1).mpr
    (Or.inl (by decide))

/-! ## C10: `addWarning` frame -/

/-- **C10.** `addWarning` appends exactly one entry to the warnings list
and leaves every other ledger field unchanged, so it never changes the
value of `shouldFail()`. -/
theorem addWarning_frame (t : FailureTracker) (message : String)
    (page : Option String) :
    (t.addWarning message page).warnings =
      t.warnings ++ [{ message := message, page := page }] ∧
    (t.addWarning message page).warnings.length = t.warnings.length + 1 ∧
    (t.addWarning message page).failures = t.failures ∧
    (t.addWarning message page).criticalFailures = t.criticalFailures ∧
    (t.addWarning message page).testedElements = t.testedElements ∧
    (t.addWarning message page).brokenElements = t.brokenElements ∧
    (t.addWarning message page).pagesVisited = t.pagesVisited ∧
    (t.addWarning message page).shouldFail = t.shouldFail := by
  refine ⟨rfl, ?_, rfl, rfl, rfl, rfl, rfl, rfl⟩
  simp [FailureTracker.addWarning]

/-! ## C9: ledger invariants (corrected) -/

/-- **C9 counterexample.**  The engine itself can drive
`brokenElementCount` above `testedElementCount`, and the summary fraction
above 1: in `safeElementAction`, `incrementTested` runs only after the
interactability probe, so a probe that throws (a detached element handle)
lands in the catch, which increments broken without tested.  Two elements
of one selector class — one hidden, one with a throwing probe — leave the
ledger at 2 broken / 1 tested with summary fraction 2. -/
theorem ledger_broken_exceeds_tested_cex :
    (safeElementAction elProbeThrows "click" initTracker).2.brokenElements
        = 1 ∧
    (safeElementAction elProbeThrows "click" initTracker).2.testedElements
        = 0 ∧
    (testSelectorClass "button:not([disabled])"
      (Except.ok [clickableHidden, clickableProbeThrows])
      initTracker).1.brokenElements = 2 ∧
    (testSelectorClass "button:not([disabled])"
      (Except.ok [clickableHidden, clickableProbeThrows])
      initTracker).1.testedElements = 1 ∧
    (testSelectorClass "button:not([disabled])"
      (Except.ok [clickableHidden, clickableProbeThrows])
      initTracker).1.getSummary.brokenElementFrac = 2 := by
  refine ⟨rfl, rfl, rfl, rfl, ?_⟩
  have hb : (testSelectorClass "button:not([disabled])"
      (Except.ok [clickableHidden, clickableProbeThrows])
      initTracker).1.brokenElements = 2 := rfl
  have ht : (testSelectorClass "button:not([disabled])"
      (Except.ok [clickableHidden, clickableProbeThrows])
      initTracker).1.testedElements = 1 := rfl
  rw [FailureTracker.getSummary]
  dsimp only
  rw [hb, ht]
  norm_num

/-- **C9 (amended).**  For every reachable ledger state,
`criticalFailureCount ≤ totalFailureCount` and the broken-element
fraction is nonnegative and equals 0 when no elements were tested.  (The
claim's further inequalities `brokenElementCount ≤ testedElementCount`
and `brokenElementRatio ≤ 1` fail on the code: see the counterexample.) -/
theorem ledger_reachable_invariants (t : FailureTracker)
    (h : ReachableOps t) :
    t.criticalFailures.length ≤ t.failures.length ∧
    0 ≤ t.getSummary.brokenElementFrac ∧
    (t.testedElements = 0 → t.getSummary.brokenElementFrac = 0) := by
  refine ⟨?_, ?_, ?_⟩
  · rw [reachable_critical_eq_filter h]
    exact List.length_filter_le _ _
  · rw [FailureTracker.getSummary]
    dsimp only
    split
    · positivity
    · exact le_refl 0
  · intro h0
    simp [FailureTracker.getSummary, h0]

/-- Witness for C9 at a concrete reachable ledger. -/
theorem ledger_reachable_invariants_witness :
    trackerCritical.criticalFailures.length ≤
      trackerCritical.failures.length ∧
    trackerCritical.getSummary.brokenElementFrac = 0 :=
  ⟨(ledger_reachable_invariants trackerCritical
      (ReachableOps.addFailure _ _ _ _ ReachableOps.init)).1,
   (ledger_reachable_invariants trackerCritical
      (ReachableOps.addFailure _ _ _ _ ReachableOps.init)).2.2 rfl⟩

/-- The boolean result of `safeElementAction` depends only on the
element's behaviour, not on the tracker or the action arguments. -/
theorem safeElementAction_fst (el : ElementBehavior) (action : String)
    (t : FailureTracker) (args : List String) :
    (safeElementAction el action t args).1 = elementSucceeds el := by
  obtain ⟨probe, scroll, postScroll, act⟩ := el
  cases probe with
  | error msg => rfl
  | ok i =>
    obtain ⟨vis, click, tag⟩ := i
    cases vis <;> cases click <;> cases scroll <;> cases postScroll <;>
      first
      | rfl
      | (rename_i v; cases v <;> cases act <;> rfl)

/-! ## C5: per-element counter discipline (corrected) -/

/-- **C5 counterexample.**  The claim that every failing element
increments `brokenElementCount` exactly once is false: an element that
passes the probe but fails the post-scroll visibility re-check returns
failure and records `ELEMENT_STILL_HIDDEN_AFTER_SCROLL` (critical), yet
the broken counter is left untouched (src/index.js:143-147 has no
`incrementBroken`). -/
theorem postscroll_not_counted_broken_cex :
    ¬ (∀ (el : ElementBehavior) (action : String) (t : FailureTracker),
        (safeElementAction el action t).1 = false →
        (safeElementAction el action t).2.brokenElements =
          t.brokenElements + 1) := by
  intro hclaim
  have h := hclaim elStillHidden "click" initTracker (by decide)
  exact absurd h (by decide)

/-- **C5 (amended).**  `safeElementAction` increments the tested counter
exactly when the interactability probe succeeds; a successful action
leaves the broken counter unchanged; a failing element increments the
broken counter exactly once — except the post-scroll re-check failure,
which leaves the broken counter unchanged (it records a critical failure
instead). -/
theorem safeElementAction_counter_discipline (el : ElementBehavior)
    (action : String) (t : FailureTracker) (args : List String) :
    (probeOk el = true →
      (safeElementAction el action t args).2.testedElements =
        t.testedElements + 1) ∧
    (probeOk el = false →
      (safeElementAction el action t args).2.testedElements =
        t.testedElements) ∧
    ((safeElementAction el action t args).1 = true →
      (safeElementAction el action t args).2.brokenElements =
        t.brokenElements) ∧
    ((safeElementAction el action t args).1 = false →
      postScrollStalls el = false →
      (safeElementAction el action t args).2.brokenElements =
        t.brokenElements + 1) ∧
    (postScrollStalls el = true →
      (safeElementAction el action t args).1 = false ∧
      (safeElementAction el action t args).2.brokenElements =
        t.brokenElements) := by
  obtain ⟨probe, scroll, postScroll, act⟩ := el
  cases probe with
  | error msg =>
    simp [safeElementAction, probeOk, postScrollStalls,
      FailureTracker.addFailure, FailureTracker.incrementBroken]
  | ok i =>
    obtain ⟨vis, click, tag⟩ := i
    cases vis with
    | false =>
      simp [safeElementAction, probeOk, postScrollStalls,
        FailureTracker.addFailure, FailureTracker.incrementBroken,
        FailureTracker.incrementTested]
    | true =>
      cases click with
      | false =>
        simp [safeElementAction, probeOk, postScrollStalls,
          FailureTracker.addFailure, FailureTracker.incrementBroken,
          FailureTracker.incrementTested]
      | true =>
        cases scroll with
        | error msg =>
          simp [safeElementAction, probeOk, postScrollStalls,
            FailureTracker.addFailure, FailureTracker.incrementBroken,
            FailureTracker.incrementTested]
        | ok u =>
          cases postScroll with
          | error msg =>
            simp [safeElementAction, probeOk, postScrollStalls,
              FailureTracker.addFailure, FailureTracker.incrementBroken,
              FailureTracker.incrementTested]
          | ok v =>
            cases v <;> cases act <;>
              simp [safeElementAction, probeOk, postScrollStalls,
                FailureTracker.addFailure, FailureTracker.incrementBroken,
                FailureTracker.incrementTested]

/-- Witness for C5 on concrete elements, one per hypothesis: a healthy
element (probe succeeds, tested incremented, broken unchanged), a
probe-throwing element (tested unchanged), a hidden element (broken
incremented once), and a post-scroll-hidden element (failure with broken
unchanged). -/
theorem safeElementAction_counter_discipline_witness :
    (safeElementAction elGood "click" initTracker []).2.testedElements =
      initTracker.testedElements + 1 ∧
    (safeElementAction elProbeThrows "click" initTracker
      []).2.testedElements = initTracker.testedElements ∧
    (safeElementAction elGood "click" initTracker []).2.brokenElements =
      initTracker.brokenElements ∧
    (safeElementAction elHidden "click" initTracker []).2.brokenElements =
      initTracker.brokenElements + 1 ∧
    (safeElementAction elStillHidden "click" initTracker []).1 = false ∧
    (safeElementAction elStillHidden "click" initTracker
      []).2.brokenElements = initTracker.brokenElements :=
  ⟨(safeElementAction_counter_discipline elGood "click" initTracker []).1
      (by decide),
   (safeElementAction_counter_discipline elProbeThrows "click" initTracker
      []).2.1 (by decide),
   (safeElementAction_counter_discipline elGood "click" initTracker
      []).2.2.1 (by decide),
   (safeElementAction_counter_discipline elHidden "click" initTracker
      []).2.2.2.1 (by decide) (by decide),
   ((safeElementAction_counter_discipline elStillHidden "click" initTracker
      []).2.2.2.2 (by decide)).1,
   ((safeElementAction_counter_discipline elStillHidden "click" initTracker
      []).2.2.2.2 (by decide)).2⟩

/-! ## C2: FAIL-dominant merge -/

/-- **C2.**  The final decision is FAIL-dominant: whenever the heuristic
(the ledger's `shouldFail` snapshot) says FAIL, the final decision is FAIL
regardless of the judge — a heuristic FAIL is never downgraded; and when
the heuristic says PASS, the final decision follows the judge (FAIL on a
parsed FAIL, PASS on a parsed PASS, PASS when the judge is
unavailable). -/
theorem merge_fail_dominant (j : JudgeOutcome) (status : Nat)
    (t : FailureTracker) :
    (t.getSummary.summaryShouldFail = true →
      (decisionPhase j status t).1 = "FAIL") ∧
    (t.getSummary.summaryShouldFail = false →
      (judgeVerdict j = some "FAIL" →
        (decisionPhase j status t).1 = "FAIL") ∧
      (judgeVerdict j = some "PASS" →
        (decisionPhase j status t).1 = "PASS") ∧
      (judgeVerdict j = none →
        (decisionPhase j status t).1 = "PASS")) := by
  cases j with
  | noKey => constructor <;> intro hsf <;> simp [decisionPhase, judgeVerdict, hsf]
  | notOk => constructor <;> intro hsf <;> simp [decisionPhase, judgeVerdict, hsf]
  | throwErr msg =>
    constructor <;> intro hsf <;> simp [decisionPhase, judgeVerdict, hsf]
  | ok content =>
    by_cases hp : matchesResultPass content = true
    · constructor <;> intro hsf <;>
        simp [decisionPhase, judgeVerdict, hsf, hp]
    · by_cases hf : matchesResultFail content = true
      · constructor <;> intro hsf <;>
          simp [decisionPhase, judgeVerdict, hsf, hp, hf]
      · constructor <;> intro hsf <;>
          simp [decisionPhase, judgeVerdict, hsf, hp, hf]

/-- Witness for C2 at concrete inputs: a critical ledger beats a judge
PASS; on a clean ledger, a judge FAIL fails, a judge PASS passes, and an
absent judge passes. -/
theorem merge_fail_dominant_witness :
    (decisionPhase (JudgeOutcome.ok "RESULT: PASS") 200 trackerCritical).1
        = "FAIL" ∧
    (decisionPhase (JudgeOutcome.ok "RESULT: FAIL") 200 initTracker).1
        = "FAIL" ∧
    (decisionPhase (JudgeOutcome.ok "RESULT: PASS") 200 initTracker).1
        = "PASS" ∧
    (decisionPhase JudgeOutcome.noKey 200 initTracker).1 = "PASS" :=
  ⟨(merge_fail_dominant (JudgeOutcome.ok "RESULT: PASS") 200
      trackerCritical).1 (by decide),
   ((merge_fail_dominant (JudgeOutcome.ok "RESULT: FAIL") 200
      initTracker).2 (by decide)).1 (by decide),
   ((merge_fail_dominant (JudgeOutcome.ok "RESULT: PASS") 200
      initTracker).2 (by decide)).2.1 (by decide),
   ((merge_fail_dominant JudgeOutcome.noKey 200
      initTracker).2 (by decide)).2.2 (by decide)⟩

/-! ## C7: the judge is advisory (corrected) -/

/-- **C7 counterexample.**  The claim that every judge failure mode
records a warning is false: when the judge call succeeds at the HTTP level
but the body matches neither `RESULT: PASS` nor `RESULT: FAIL`, the
source's `if/else if` chain (src/index.js:808-814) falls through without
touching the tracker — no warning is recorded. -/
theorem judge_unparsed_no_warning_cex :
    ¬ (∀ (j : JudgeOutcome) (status : Nat) (t : FailureTracker),
        (judgeCallFailed j = true ∨ judgeUnparsed j = true) →
        (decisionPhase j status t).2.2.warnings.length =
          t.warnings.length + 1) := by
  intro hclaim
  have h := hclaim (JudgeOutcome.ok "I think the site is fine") 200
    initTracker (Or.inr (by decide))
  exact absurd h (by decide)

/-- **C7 (amended).**  Whenever the judge yields no verdict (unavailable,
failed call, or unparseable response), the final decision equals the one
the heuristic alone would produce, and no FailureRecord is ever created by
the judge path; a failed or thrown call records exactly one warning, but
an HTTP-ok unparseable response records none. -/
theorem judge_advisory_fallback (j : JudgeOutcome) (status : Nat)
    (t : FailureTracker) :
    (judgeVerdict j = none →
      (decisionPhase j status t).1 =
        (decisionPhase JudgeOutcome.noKey status t).1) ∧
    ((decisionPhase j status t).2.2.failures = t.failures ∧
     (decisionPhase j status t).2.2.criticalFailures =
       t.criticalFailures) ∧
    (judgeCallFailed j = true →
      (decisionPhase j status t).2.2.warnings.length =
        t.warnings.length + 1) ∧
    (judgeUnparsed j = true →
      (decisionPhase j status t).2.2.warnings = t.warnings) := by
  cases j with
  | noKey =>
    by_cases hsf : t.getSummary.summaryShouldFail = true <;>
      simp [decisionPhase, judgeVerdict, judgeCallFailed, judgeUnparsed, hsf,
        FailureTracker.addWarning]
  | notOk =>
    by_cases hsf : t.getSummary.summaryShouldFail = true <;>
      simp [decisionPhase, judgeVerdict, judgeCallFailed, judgeUnparsed, hsf,
        FailureTracker.addWarning]
  | throwErr msg =>
    by_cases hsf : t.getSummary.summaryShouldFail = true <;>
      simp [decisionPhase, judgeVerdict, judgeCallFailed, judgeUnparsed, hsf,
        FailureTracker.addWarning]
  | ok content =>
    by_cases hp : matchesResultPass content = true <;>
    by_cases hf : matchesResultFail content = true <;>
    by_cases hsf : t.getSummary.summaryShouldFail = true <;>
      simp [decisionPhase, judgeVerdict, judgeCallFailed, judgeUnparsed,
        hsf, hp, hf, FailureTracker.addWarning]

/-- Witness for C7 on concrete judge outcomes: a failed HTTP call records
one warning and falls back to the heuristic; an unparseable body records
none; neither path adds a failure record. -/
theorem judge_advisory_fallback_witness :
    (decisionPhase JudgeOutcome.notOk 200 initTracker).1 =
      (decisionPhase JudgeOutcome.noKey 200 initTracker).1 ∧
    (decisionPhase JudgeOutcome.notOk 200 initTracker).2.2.warnings.length
        = initTracker.warnings.length + 1 ∧
    (decisionPhase (JudgeOutcome.ok "no protocol here") 200
      initTracker).2.2.warnings = initTracker.warnings ∧
    (decisionPhase JudgeOutcome.notOk 200 initTracker).2.2.failures =
      initTracker.failures :=
  ⟨(judge_advisory_fallback JudgeOutcome.notOk 200 initTracker).1
      (by decide),
   (judge_advisory_fallback JudgeOutcome.notOk 200 initTracker).2.2.1
      (by decide),
   (judge_advisory_fallback (JudgeOutcome.ok "no protocol here") 200
      initTracker).2.2.2 (by decide),
   (judge_advisory_fallback JudgeOutcome.notOk 200 initTracker).2.1.1⟩

/-! ## C3: retry exhaustion (code bug) -/

/-- **C3.**  Evaluating the batch-review retry loop with the source's
`maxAttempts = 2` on a session every attempt of which throws (for example
a navigation that is refused on every try): the loop's second iteration
hits the `attempts === maxAttempts` guard before opening a page, records
`MAX_ATTEMPTS_REACHED` (critical) and breaks, so nothing is pushed to
`results` — the session yields no decision at all, and in particular no
FAIL result with reason `Test execution failed: <cause>` (the catch branch
that would push it requires `attempts === maxAttempts` inside a body that
only runs when `attempts < maxAttempts`, so it is unreachable). -/
theorem retry_exhaustion_no_decision :
    (attemptLoop (fun _ => AttemptOutcome.err "connection refused") 2).2
        = [] ∧
    ((attemptLoop (fun _ => AttemptOutcome.err "connection refused")
        2).1.failures.map (fun f => f.type)) = ["MAX_ATTEMPTS_REACHED"] ∧
    (attemptLoop (fun _ => AttemptOutcome.err "connection refused")
        2).1.criticalFailures.length = 1 ∧
    ((attemptLoop (fun _ => AttemptOutcome.err "connection refused")
        2).2.filter (fun r =>
          decide (r.finalDecision = "FAIL"))).length = 0 := by
  refine ⟨rfl, by decide, by decide, rfl⟩

/-! ## C8: per-selector attempt count (corrected) -/

/-- `testOneClickable` reaches the primary click attempt exactly when the
three pre-click steps succeed. -/
theorem testOneClickable_attempted (e : ClickableElement)
    (t : FailureTracker) :
    (testOneClickable e t).2 = reachesClick e := by
  obtain ⟨info, sc, hov, beh, modal⟩ := e
  cases info with
  | error msg => rfl
  | ok u1 =>
    cases sc with
    | error msg => rfl
    | ok u2 =>
      cases hov with
      | error msg => rfl
      | ok u3 =>
        simp only [testOneClickable, reachesClick]
        by_cases hc : (safeElementAction beh "click" t).1 = true
        · cases modal with
          | error msg => simp [hc]
          | ok mo =>
            cases mo with
            | none => simp [hc]
            | some cb => cases cb <;> simp [hc]
        · simp [hc]

/-- The inner fold of `testSelectorClass` counts exactly the elements
whose pre-click steps succeed. -/
theorem testSelectorClass_fold_count (es : List ClickableElement)
    (t : FailureTracker) (n : Nat) :
    (es.foldl
      (fun acc e =>
        let r := testOneClickable e acc.1
        (r.1, if r.2 then acc.2 + 1 else acc.2))
      (t, n)).2 = n + (es.filter reachesClick).length := by
  induction es generalizing t n with
  | nil => simp
  | cons e rest ih =>
    simp only [List.foldl_cons, List.filter_cons]
    rw [testOneClickable_attempted]
    by_cases hr : reachesClick e = true
    · simp only [hr, if_true]
      rw [ih]
      simp [Nat.add_comm, Nat.add_assoc, Nat.add_left_comm]
    · simp only [hr, if_false, Bool.false_eq_true]
      rw [ih]

/-- Per selector class, the number of click attempts equals the number of
matched elements whose pre-click steps succeed. -/
theorem testSelectorClass_count (s : String)
    (res : Except String (List ClickableElement)) (t : FailureTracker) :
    (testSelectorClass s res t).2 = classAttempts res := by
  cases res with
  | error msg => rfl
  | ok es =>
    simp only [testSelectorClass, classAttempts]
    simpa using testSelectorClass_fold_count es t 0

/-- The selector fold of `testAllInteractiveElements` logs, per selector,
exactly the class attempt counts. -/
theorem testAllInteractive_fold (sels : List String)
    (pg : String → Except String (List ClickableElement))
    (t : FailureTracker) (acc : List (String × Nat)) :
    (sels.foldl
      (fun acc s =>
        let r := testSelectorClass s (pg s) acc.1
        (r.1, acc.2 ++ [(s, r.2)]))
      (t, acc)).2 = acc ++ sels.map (fun s => (s, classAttempts (pg s))) := by
  induction sels generalizing t acc with
  | nil => simp
  | cons s rest ih =>
    simp only [List.foldl_cons, List.map_cons]
    rw [testSelectorClass_count, ih]
    simp

/-- **C8 counterexample.**  The claim that at most 2-3 elements per
selector class are attempted is false: on a page with four healthy
buttons, the primary loop (src/index.js:383-428) attempts all four. -/
theorem per_selector_bound_cex :
    ¬ (∀ (pg : String → Except String (List ClickableElement))
        (t : FailureTracker),
        ((testAllInteractiveElements pg t).2.all
          (fun p => decide (p.2 ≤ 3))) = true) := by
  intro hclaim
  have h := hclaim pageFourButtons initTracker
  exact absurd h (by decide)

/-- **C8 (amended).**  `testAllInteractiveElements` attempts a click on
every matched element of every selector class whose pre-click steps do not
throw: the per-class attempt count equals the number of such elements and
is not bounded by any constant independent of page size. -/
theorem interactive_attempts_per_selector
    (pg : String → Except String (List ClickableElement))
    (t : FailureTracker) :
    (testAllInteractiveElements pg t).2 =
      buttonSelectors.map (fun s => (s, classAttempts (pg s))) := by
  simpa using testAllInteractive_fold buttonSelectors pg t []

/-! ## C6: holistic form records -/

/-- `addFailure` makes its own record visible. -/
theorem hasFailureRecord_addFailure_self (t : FailureTracker)
    (ty msg : String) (sev : Severity) (pg : Option String) :
    hasFailureRecord (t.addFailure ty msg sev pg) ty sev = true := by
  simp [hasFailureRecord, FailureTracker.addFailure]

/-- `addFailure` preserves previously recorded failures. -/
theorem hasFailureRecord_addFailure_mono (t : FailureTracker)
    (ty' msg : String) (sev' : Severity) (pg : Option String)
    (ty : String) (sev : Severity)
    (h : hasFailureRecord t ty sev = true) :
    hasFailureRecord (t.addFailure ty' msg sev' pg) ty sev = true := by
  simp only [hasFailureRecord, FailureTracker.addFailure, List.any_append,
    Bool.or_eq_true]
  exact Or.inl h

/-- `mostlyBrokenCheck` preserves previously recorded failures. -/
theorem hasFailureRecord_mostlyBroken_mono (formId : String)
    (count fails : Nat) (t : FailureTracker) (ty : String)
    (sev : Severity) (h : hasFailureRecord t ty sev = true) :
    hasFailureRecord (mostlyBrokenCheck formId count fails t) ty sev
      = true := by
  unfold mostlyBrokenCheck
  split
  · exact hasFailureRecord_addFailure_mono _ _ _ _ _ _ _ h
  · exact h

/-- When the broken share exceeds one half, `mostlyBrokenCheck` records
`FORM_MOSTLY_BROKEN` with critical severity. -/
theorem hasFailureRecord_mostlyBroken_self (formId : String)
    (count fails : Nat) (t : FailureTracker) (h : count < 2 * fails) :
    hasFailureRecord (mostlyBrokenCheck formId count fails t)
      "FORM_MOSTLY_BROKEN" Severity.critical = true := by
  unfold mostlyBrokenCheck
  rw [if_pos h]
  exact hasFailureRecord_addFailure_self _ _ _ _ _

/-- The input loop of one form returns `formInteractionCount` equal to
the number of found inputs, and `formFailures` equal to failed fills plus
thrown lookups. -/
theorem formInputsLoop_spec (formId : String)
    (inputs : List FormInputModel) :
    ∀ (c f : Nat) (t : FailureTracker),
    (formInputsLoop formId inputs c f t).1 =
      c + (inputs.filter inputOkSome).length ∧
    (formInputsLoop formId inputs c f t).2.1 =
      f + (inputs.filter inputFillFails).length +
        (inputs.filter inputLookupThrows).length := by
  induction inputs with
  | nil => intro c f t; simp [formInputsLoop]
  | cons i rest ih =>
    intro c f t
    obtain ⟨ty, lookup⟩ := i
    cases lookup with
    | error msg =>
      simp only [formInputsLoop, List.filter_cons, inputOkSome,
        inputFillFails, inputLookupThrows]
      obtain ⟨ih1, ih2⟩ := ih c (f + 1)
        (t.addFailure "FORM_INPUT_ERROR"
          ("Error with input " ++ ty ++ ": " ++ msg) Severity.high)
      constructor
      · rw [ih1]; simp
      · rw [ih2]; simp; omega
    | ok o =>
      cases o with
      | none =>
        simp only [formInputsLoop, List.filter_cons, inputOkSome,
          inputFillFails, inputLookupThrows]
        obtain ⟨ih1, ih2⟩ := ih c f t
        constructor
        · rw [ih1]; simp
        · rw [ih2]; simp
      | some el =>
        simp only [formInputsLoop, List.filter_cons, inputOkSome,
          inputFillFails, inputLookupThrows]
        rw [safeElementAction_fst]
        by_cases hs : elementSucceeds el = true
        · simp only [hs, if_true, Bool.not_true]
          obtain ⟨ih1, ih2⟩ := ih (c + 1) f
            (safeElementAction el "fill" t.incrementTested
              [(formTestData ty).getD ((c + 1) % (formTestData ty).length)
                ""]).2
          constructor
          · rw [ih1]; simp; omega
          · rw [ih2]; simp
        · simp only [Bool.not_eq_true] at hs
          simp only [hs, Bool.false_eq_true, if_false, Bool.not_false]
          obtain ⟨ih1, ih2⟩ := ih (c + 1) (f + 1)
            ((safeElementAction el "fill" t.incrementTested
              [(formTestData ty).getD ((c + 1) % (formTestData ty).length)
                ""]).2.addFailure "FORM_INPUT_FAILED"
              ("Cannot interact with " ++ ty ++ " input in form " ++ formId)
              Severity.high)
          constructor
          · rw [ih1]; simp; omega
          · rw [ih2]; simp; omega

/-- **C6.**  For every form whose pre-step succeeds (the form is actually
tested): when more than half of the attempted inputs fail and the submit
phase does not throw, a `FORM_MOSTLY_BROKEN` record with critical severity
is added; when no submit control is found, a `NO_SUBMIT_BUTTON` record
with medium severity is added; when a submit control exists but fails the
actionability check, a `SUBMIT_BUTTON_DISABLED` record with critical
severity is added; and the concrete Scenario C form (5 inputs, 4 disabled)
drives `shouldFail` to true. -/
theorem form_holistic_records (formIndex : Nat) (f : FormModel)
    (t : FailureTracker) (hpre : f.pre = Except.ok ()) :
    (attemptedInputs f < 2 * failedAttemptedInputs f →
      submitPathClean f = true →
      hasFailureRecord (testOneForm formIndex f t)
        "FORM_MOSTLY_BROKEN" Severity.critical = true) ∧
    (f.hasSubmitButton = false →
      hasFailureRecord (testOneForm formIndex f t)
        "NO_SUBMIT_BUTTON" Severity.medium = true) ∧
    (∀ sm, f.hasSubmitButton = true →
      f.submitLookup = Except.ok (some sm) →
      sm.clickable = Except.ok false →
      hasFailureRecord (testOneForm formIndex f t)
        "SUBMIT_BUTTON_DISABLED" Severity.critical = true) ∧
    (testOneForm 0 scenarioForm initTracker).shouldFail = true := by
  refine ⟨?_, ?_, ?_, by decide⟩
  · intro hratio hclean
    obtain ⟨hc, hf2⟩ := formInputsLoop_spec f.id f.inputs 0 0 t
    have hcount : (formInputsLoop f.id f.inputs 0 0 t).1 =
        attemptedInputs f := by
      rw [hc, attemptedInputs]; omega
    have hfail : failedAttemptedInputs f ≤
        (formInputsLoop f.id f.inputs 0 0 t).2.1 := by
      rw [hf2, failedAttemptedInputs]; omega
    have hlt : (formInputsLoop f.id f.inputs 0 0 t).1 <
        2 * (formInputsLoop f.id f.inputs 0 0 t).2.1 := by omega
    cases hsb : f.hasSubmitButton with
    | false =>
      simp only [testOneForm, hpre, hsb, Bool.false_eq_true, if_false]
      exact hasFailureRecord_mostlyBroken_self _ _ _ _ hlt
    | true =>
      cases hsl : f.submitLookup with
      | error msg =>
        simp [submitPathClean, hsb, hsl] at hclean
      | ok o =>
        cases o with
        | none =>
          simp only [testOneForm, hpre, hsb, if_true, hsl]
          exact hasFailureRecord_mostlyBroken_self _ _ _ _ hlt
        | some sm =>
          cases hcl : sm.clickable with
          | error msg =>
            simp [submitPathClean, hsb, hsl, hcl] at hclean
          | ok b =>
            cases b with
            | false =>
              simp only [testOneForm, hpre, hsb, if_true, hsl, hcl,
                Bool.not_false]
              exact hasFailureRecord_mostlyBroken_self _ _ _ _ (by omega)
            | true =>
              simp only [testOneForm, hpre, hsb, if_true, hsl, hcl,
                Bool.not_true, Bool.false_eq_true, if_false]
              exact hasFailureRecord_mostlyBroken_self _ _ _ _ hlt
  · intro hns
    simp only [testOneForm, hpre, hns, Bool.false_eq_true, if_false]
    exact hasFailureRecord_mostlyBroken_mono _ _ _ _ _ _
      (hasFailureRecord_addFailure_self _ _ _ _ _)
  · intro sm hsb hsl hcl
    simp only [testOneForm, hpre, hsb, if_true, hsl, hcl, Bool.not_false]
    exact hasFailureRecord_mostlyBroken_mono _ _ _ _ _ _
      (hasFailureRecord_addFailure_self _ _ _ _ _)

/-- Witness for C6 on concrete forms: the Scenario C form (4 of 5 inputs
disabled, clean submit) gets `FORM_MOSTLY_BROKEN`; a form with no submit
control gets `NO_SUBMIT_BUTTON`; a form with a disabled submit control
gets `SUBMIT_BUTTON_DISABLED`. -/
theorem form_holistic_records_witness :
    hasFailureRecord (testOneForm 0 scenarioForm initTracker)
      "FORM_MOSTLY_BROKEN" Severity.critical = true ∧
    hasFailureRecord (testOneForm 0 formNoSubmit initTracker)
      "NO_SUBMIT_BUTTON" Severity.medium = true ∧
    hasFailureRecord (testOneForm 0 formDisabledSubmit initTracker)
      "SUBMIT_BUTTON_DISABLED" Severity.critical = true :=
  ⟨(form_holistic_records 0 scenarioForm initTracker rfl).1
      (by decide) (by decide),
   (form_holistic_records 0 formNoSubmit initTracker rfl).2.1 rfl,
   (form_holistic_records 0 formDisabledSubmit initTracker rfl).2.2.1
      { clickable := Except.ok false } rfl rfl rfl⟩

/-! ## C4: crawl traversal invariants -/

/-- The crawl invariant ignores the tracker. -/
theorem crawlInv_tracker (maxDepth : Nat) (st : CrawlState)
    (tr : FailureTracker) :
    CrawlInv maxDepth { st with tracker := tr } ↔ CrawlInv maxDepth st :=
  Iff.rfl

/-- The candidate loop preserves the crawl invariant provided the
recursive call does. -/
theorem crawlLinksLoop_inv (web : Web) (maxDepth : Nat)
    (recurse : String → CrawlState → CrawlState)
    (hrec : ∀ u st, CrawlInv maxDepth st →
      CrawlInv maxDepth (recurse u st))
    (doRecurse : Bool) :
    ∀ (links : List LinkInfo) (st : CrawlState), CrawlInv maxDepth st →
      CrawlInv maxDepth (crawlLinksLoop web recurse doRecurse links st) := by
  intro links
  induction links with
  | nil => intro st h; exact h
  | cons l ls ih =>
    intro st h
    rw [crawlLinksLoop]
    by_cases hskip : st.visited.contains l.href = true ∨
        TESTING_CONFIG.MAX_PAGES_TO_TEST ≤ st.visited.length
    · rw [if_pos hskip]
      exact ih st h
    · rw [if_neg hskip]
      push_neg at hskip
      obtain ⟨hnotmem, hlen⟩ := hskip
      obtain ⟨hnd, hlog, hcap, hdep⟩ := h
      have hmem : l.href ∉ st.visited := by
        intro hm
        exact hnotmem (by simpa using hm)
      have h1 : CrawlInv maxDepth
          { st with
            visited := st.visited ++ [l.href]
            tracker := st.tracker.pushPageVisited l.href
            navLog := st.navLog ++ [l.href] } := by
        refine ⟨?_, ?_, ?_, ?_⟩
        · simp [List.nodup_append, hnd, hmem]
        · simp [hlog]
        · simp only [List.length_append, List.length_singleton]
          omega
        · exact hdep
      cases hn : web.navigate l.href with
      | error msg =>
        exact ih _ ((crawlInv_tracker _ _ _).mpr h1)
      | ok status =>
        dsimp only
        by_cases hs : 400 ≤ status
        · rw [if_pos hs]
          exact ih _ ((crawlInv_tracker _ _ _).mpr h1)
        · rw [if_neg hs]
          cases doRecurse with
          | false =>
            exact ih _ ((crawlInv_tracker _ _ _).mpr h1)
          | true =>
            exact ih _ (hrec _ _ ((crawlInv_tracker _ _ _).mpr h1))

/-- `performComprehensiveNavigation` preserves the crawl invariant. -/
theorem performComprehensiveNavigation_inv (web : Web) (maxDepth : Nat) :
    ∀ (currentDepth : Nat) (base : String) (st : CrawlState),
      CrawlInv maxDepth st →
      CrawlInv maxDepth
        (performComprehensiveNavigation web maxDepth currentDepth base
          st) := by
  have main : ∀ (n currentDepth : Nat), maxDepth - currentDepth ≤ n →
      ∀ (base : String) (st : CrawlState), CrawlInv maxDepth st →
      CrawlInv maxDepth
        (performComprehensiveNavigation web maxDepth currentDepth base
          st) := by
    intro n
    induction n with
    | zero =>
      intro currentDepth hn base st h
      rw [performComprehensiveNavigation]
      rw [dif_pos (Or.inl (by omega))]
      exact h
    | succ n ih =>
      intro currentDepth hn base st h
      rw [performComprehensiveNavigation]
      by_cases hg : maxDepth ≤ currentDepth ∨
          TESTING_CONFIG.MAX_PAGES_TO_TEST ≤ st.visited.length
      · rw [dif_pos hg]
        exact h
      · rw [dif_neg hg]
        push_neg at hg
        obtain ⟨hdlt, _⟩ := hg
        have h1 : CrawlInv maxDepth
            { st with callDepths := st.callDepths ++ [currentDepth] } := by
          obtain ⟨ha, hb, hc, hdep⟩ := h
          refine ⟨ha, hb, hc, ?_⟩
          intro d hdmem
          rcases List.mem_append.mp hdmem with hm | hm
          · exact hdep d hm
          · simp only [List.mem_singleton] at hm
            omega
        cases hA : web.anchors base with
        | error msg =>
          exact (crawlInv_tracker _ _ _).mpr h1
        | ok anchors =>
          refine crawlLinksLoop_inv web maxDepth _ ?_ _ _ _ h1
          intro u st2 h2
          exact ih (currentDepth + 1) (by omega) u st2 h2
  intro currentDepth base st h
  exact main (maxDepth - currentDepth) currentDepth (le_refl _) base st h

/-- **C4.**  For every web, base URL and depth bound, the crawl started
from the batch-review root never navigates to the same URL twice (its
`page.goto` log is duplicate-free), never navigates to more than
`MAX_PAGES_TO_TEST` (15) pages, and every recursive activation that does
work runs at a depth strictly below the given `maxDepth`.  (Each
candidate is added to `visitedUrls` immediately before navigation — in the
model `navLog` and `visited` are appended in the same step — which is what
makes the log duplicate-free.) -/
theorem crawl_visits_nodup_bounded (web : Web) (maxDepth : Nat)
    (base : String) (t : FailureTracker) :
    (crawlFromRoot web maxDepth base t).navLog.Nodup ∧
    (crawlFromRoot web maxDepth base t).navLog.length ≤
      TESTING_CONFIG.MAX_PAGES_TO_TEST ∧
    ((crawlFromRoot web maxDepth base t).callDepths.all
      (fun d => decide (d < maxDepth))) = true := by
  have h := performComprehensiveNavigation_inv web maxDepth 0 base
    { visited := [], tracker := t, navLog := [], callDepths := [] }
    ⟨List.nodup_nil, rfl, by simp, by simp⟩
  obtain ⟨h1, h2, h3, h4⟩ := h
  refine ⟨?_, ?_, ?_⟩
  · rw [crawlFromRoot, h2]
    exact h1
  · rw [crawlFromRoot, h2]
    exact h3
  · rw [List.all_eq_true]
    intro d hd
    simpa using h4 d (by simpa using hd)
